import Mathlib

/-!
Shallow embedding of the OnionCat SOCKS connector (src/src/ocatsocks.c) and
proofs about the claims of the specification.

Modelling conventions:
* machine integers are `Nat`/`Int`; file descriptors are `Int` (the code stores
  `-1` from a failed `socket()` call into the `fd` field);
* byte buffers are `List Nat`; the result of a `read()` call is
  `Option (List Nat)` (`none` models a return of `-1`, `some bs` a successful
  read of the bytes `bs`);
* external collaborators (hosts file, DNS codec, sockets, the peer registry)
  are abstracted as per-step oracle records (`EnvA`, `EnvW`, `EnvR`, ...)
  whose fields give the outcome the collaborator produced in that step;
* the reactor is modelled per entry by three step functions corresponding to
  the phase-A state scan, the writable dispatch and the readable dispatch of
  `socks_connector_sel`, plus queue-level functions for the pipe drain and the
  final reap walk;
* `attempts` is a ghost field of the queue-entry structure counting the calls
  to `socks_tcp_connect` made for the entry (instrumentation for the
  retry-bound claims); it is not part of the C struct and no modelled branch
  reads it.
-/

namespace OcatSocks

/-- Connection mode `CNF(socks5)`: CONNTYPE_SOCKS4A, CONNTYPE_SOCKS5 or
CONNTYPE_DIRECT. -/
inductive ConnType where
  | socks4a
  | socks5
  | direct
deriving DecidableEq, Repr

/-- The per-request states (SOCKS_NEW, SOCKS_CONNECTING, SOCKS_4AREQ_SENT,
SOCKS_5GREET_SENT, SOCKS_5REQ_SENT, SOCKS_DNS_SENT, SOCKS_READY,
SOCKS_DELETE). -/
inductive SockState where
  | new
  | connecting
  | s4aSent
  | s5greetSent
  | s5reqSent
  | dnsSent
  | ready
  | delete
deriving DecidableEq, Repr

/-- A `SocksQueue_t` element.  `addr` encodes the 128-bit IPv6 address as a
`Nat` (only equality on it matters; the unspecified address `::` is `0`).
`nsAddr` and `id` stand for the DNS sub-state (`ns_addr`/`ns_src` and the
16-bit transaction id).  `attempts` is the ghost instrumentation counter
described in the file header. -/
structure SocksQueue_t where
  addr : Nat
  perm : Bool
  state : SockState
  fd : Int
  retry : Nat
  connectTime : Nat
  restartTime : Nat
  nsAddr : Nat
  id : Nat
  attempts : Nat
deriving DecidableEq, Repr

/-- Process-wide configuration and compile-time constants consumed by the
connector.  The numeric constants (SOCKS_MAX_RETRY, SOCKS_DNS_RETRY,
SOCKS_DNS_RETRY_TIMEOUT, TOR_SOCKS_CONN_TIMEOUT) are defined in headers that
are not part of the sources, so they are kept as parameters. -/
structure Config where
  maxRetry : Nat
  dnsRetry : Nat
  dnsTimeout : Nat
  connTimeout : Nat
  dnsLookup : Bool
  hostsLookup : Bool
  randAddr : Bool
  mode : ConnType
deriving DecidableEq, Repr

/-- `get_hostname` (ocatsocks.c:41).  `hl` is `CNF(hosts_lookup)`, `hn` the
result of the external `hosts_get_name` lookup (`none` models `-1`), `dn` the
name produced by `ipv6tonion` plus `CNF(domain)` (both external), and
`bufPresent` tells whether the `onion` output buffer is non-NULL.  The result
is the returned `int` together with the contents of the output buffer after
the call. -/
def get_hostname (hl : Bool) (hn : Option String) (dn : String)
    (bufPresent : Bool) : Int × Option String :=
  match (if hl then hn else none) with
  | some n => (0, if bufPresent then some n else none)
  | none => (-1, if bufPresent then some dn else none)

/-- `socks_rec_response` (ocatsocks.c:149) applied to the result of the
`read()` of `sizeof(SocksHdr_t) = 8` bytes.  `SocksHdr_t` is
`{ver : 1 byte, cmd : 1 byte, port : 2 bytes, addr : 4 bytes}`; the check is
`shdr.ver || shdr.cmd != 90`. -/
def socks_rec_response (rd : Option (List Nat)) : Int :=
  match rd with
  | none => -1
  | some bs =>
    if bs.length < 8 then -1
    else if bs.getD 0 0 ≠ 0 ∨ bs.getD 1 0 ≠ 90 then -1
    else 0

/-- `socks5_greet_response` (ocatsocks.c:413): reads 2 bytes, succeeds iff
they are `{5, 0}`. -/
def socks5_greet_response (rd : Option (List Nat)) : Int :=
  match rd with
  | none => -1
  | some bs =>
    if bs.length < 2 then -1
    else if bs.getD 0 0 ≠ 5 ∨ bs.getD 1 0 ≠ 0 then -1
    else 0

/-- `socks5_rec_response` (ocatsocks.c:472).  `Socks5Hdr_t` consists of the
five single-byte fields `ver`, `cmd`, `rsv`, `atyp`, `addr` (the layout is
pinned by `socks5_send_request`, which stores the name length in
`s5hdr->addr` and copies the name to `buf + sizeof(*s5hdr)`), so the
truncation check `ret < (int) sizeof(*s5hdr)` requires at least 5 bytes.
The field checks are `ver != 5 || rsv != 0` and then `cmd != 0`
(`cmd` at offset 1 is the REP byte of the reply, `rsv` is offset 2). -/
def socks5_rec_response (rd : Option (List Nat)) : Int :=
  match rd with
  | none => -1
  | some bs =>
    if bs.length < 5 then -1
    else if bs.getD 0 0 ≠ 5 ∨ bs.getD 2 0 ≠ 0 then -1
    else if bs.getD 1 0 ≠ 0 then -1
    else 0

/-- `socks_reset` (ocatsocks.c:532): close the fd and zero it if it is
positive, clear the restart time, return to SOCKS_NEW.  A non-positive `fd`
is left untouched. -/
def socks_reset (e : SocksQueue_t) : SocksQueue_t :=
  let e1 := if e.fd > 0 then { e with fd := 0 } else e
  { e1 with restartTime := 0, state := SockState.new }

/-- `socks_reschedule` (ocatsocks.c:545): `socks_reset` followed by
`restart_time = time(NULL) + TOR_SOCKS_CONN_TIMEOUT`; `t` is the current
wall time. -/
def socks_reschedule (cfg : Config) (t : Nat) (e : SocksQueue_t) :
    SocksQueue_t :=
  { socks_reset e with restartTime := t + cfg.connTimeout }

/-- Oracle for one phase-A visit of an entry (state scan of
`socks_connector_sel`, ocatsocks.c:644).  `hostsName` is the hosts-file
lookup result used by `get_hostname` (the return value of `get_hostname` does
not depend on the output buffer); `udpSock` / `tcpSock` are the results of the
`socket()` calls (`none` = `-1`); `dnsReqOk` is `socks_dns_req(squeue) != -1`
(`rndId` and `nsAddr` the transaction id from `rand()` and the nameserver
address it stores); `directAddrOk` is `hostname_addr(...) == 0`; `connOk` is
`socks_tcp_connect(...) == 0`. -/
structure EnvA where
  hostsName : Option String
  udpSock : Option Nat
  dnsReqOk : Bool
  rndId : Nat
  nsAddr : Nat
  directAddrOk : Bool
  tcpSock : Option Nat
  connOk : Bool
deriving DecidableEq, Repr

/-- Default (all-failure) phase-A oracle, used when an event list is too
short. -/
def defaultEnvA : EnvA :=
  { hostsName := none, udpSock := none, dnsReqOk := false, rndId := 0,
    nsAddr := 0, directAddrOk := false, tcpSock := none, connOk := false }

/-- Whether `get_hostname(squeue, ..., ...) != -1`, i.e. the hosts-file lookup
succeeded (ocatsocks.c:41: the return value is `-1` exactly when the lookup
did not succeed, regardless of the buffer argument). -/
def hostKnown (cfg : Config) (env : EnvA) : Bool :=
  (get_hostname cfg.hostsLookup env.hostsName "" false).1 ≠ -1

/-- The tail of the SOCKS_NEW phase-A branch (ocatsocks.c:717-758): compute
the TCP destination (DIRECT gating included), create the stream socket,
record `connect_time` and start the non-blocking connect.  Every call of
`socks_tcp_connect` bumps the ghost `attempts` counter. -/
def tcpConnectPart (cfg : Config) (t : Nat) (env : EnvA) (e : SocksQueue_t) :
    SocksQueue_t :=
  if cfg.mode = ConnType.direct ∧ hostKnown cfg env = false then
    e          -- "no valid destination name found for DIRECT connection"
  else if cfg.mode = ConnType.direct ∧ env.directAddrOk = false then
    e          -- "no IP for hostname ... found"
  else
    match env.tcpSock with
    | none => { e with fd := -1 }   -- socket() failed; -1 is stored in fd
    | some tfd =>
      let e1 := { e with fd := (tfd : Int), connectTime := t,
                         attempts := e.attempts + 1 }
      if env.connOk then { e1 with state := SockState.connecting }
      else socks_reschedule cfg t e1

/-- One phase-A visit of a queue entry: the `switch (squeue->state)` of
`socks_connector_sel` (ocatsocks.c:646-841), for a build with
WITH_DNS_LOOKUP and DIRECT_CONNECTIONS.  Registering an fd in a wait set is
not observable in this model; `oe_close` does not modify the `fd` field in
the source and hence neither here.  States with no case in this switch
(SOCKS_CONNECTING, SOCKS_READY) fall into the `default:` branch, which calls
`socks_reset`. -/
def connectorPhaseA (cfg : Config) (t : Nat) (env : EnvA)
    (e : SocksQueue_t) : SocksQueue_t :=
  match e.state with
  | SockState.new =>
    if t < e.restartTime then e
    else
      -- check and increase retry counter
      let e1 := { e with retry := e.retry + 1 }
      if e1.perm = false ∧ e1.retry > cfg.maxRetry then
        { e1 with state := SockState.delete }
      else if cfg.dnsLookup ∧ hostKnown cfg env = false ∧ e1.retry ≤ 1 then
        -- WITH_DNS_LOOKUP branch (ocatsocks.c:671-699)
        match env.udpSock with
        | some ufd =>
          let e2 := { e1 with fd := (ufd : Int), id := env.rndId,
                              nsAddr := env.nsAddr }
          if env.dnsReqOk then
            { e2 with state := SockState.dnsSent, retry := 0,
                      restartTime := t + cfg.dnsTimeout }
          else
            -- send failed: the UDP fd is closed and control falls through
            tcpConnectPart cfg t env e2
        | none => tcpConnectPart cfg t env { e1 with fd := -1 }
      else tcpConnectPart cfg t env e1
  | SockState.s4aSent => e
  | SockState.s5greetSent => e
  | SockState.s5reqSent => e
  | SockState.dnsSent =>
    -- WITH_DNS_LOOKUP case (ocatsocks.c:767-793)
    if t < e.restartTime then e
    else if e.retry < cfg.dnsRetry ∧ env.dnsReqOk then
      { e with nsAddr := env.nsAddr, retry := e.retry + 1,
               restartTime := t + cfg.dnsTimeout }
    else
      -- exhaustion / resend failure: close the UDP fd, fall back to the
      -- algorithmic (V2) hostname
      { e with state := SockState.new, restartTime := 0, retry := 1 }
  | SockState.delete => e
  | _ => socks_reset e   -- "ignoring unknown state"

/-- Oracle for a writable event: `soErr` is nonzero `SO_ERROR` (or a failed
`getsockopt`), `sendOk` the success of the handshake write
(`socks_send_request` resp. `socks5_greet`). -/
structure EnvW where
  soErr : Bool
  sendOk : Bool
deriving DecidableEq, Repr

/-- Writable dispatch of `socks_connector_sel` (ocatsocks.c:883-945).  The
returned `Bool` is `true` when the C code executed `continue` for this entry
(in which case the readable dispatch of the same iteration is skipped). -/
def connectorWritable (cfg : Config) (t : Nat) (env : EnvW)
    (e : SocksQueue_t) : SocksQueue_t × Bool :=
  if e.state = SockState.connecting then
    if env.soErr then (socks_reschedule cfg t e, true)
    else
      match cfg.mode with
      | ConnType.socks4a =>
        if env.sendOk then ({ e with state := SockState.s4aSent }, false)
        else (socks_reschedule cfg t e, true)
      | ConnType.socks5 =>
        if env.sendOk then ({ e with state := SockState.s5greetSent }, false)
        else (socks_reschedule cfg t e, true)
      | ConnType.direct =>
        -- socks_activate_peer hands the fd to the registry, then DELETE
        ({ e with state := SockState.delete }, false)
  else (e, false)   -- "unknown state ... in write set": log only

/-- Oracle for a readable event: `rd` is the byte-level result of the
`read()` performed by the response parser of the current state, `sendOk` the
success of `socks5_send_request` (used after a good SOCKS5 greeting), and
`dnsOk` the success of `socks_dns_recv` (source check and DNS decode). -/
structure EnvR where
  rd : Option (List Nat)
  sendOk : Bool
  dnsOk : Bool
deriving DecidableEq, Repr

/-- Readable dispatch of `socks_connector_sel` (ocatsocks.c:948-1024).
On a valid DNS response the UDP fd is closed (the `fd` field keeps its
value, as in the source) and the entry is reset to SOCKS_NEW with
`retry = 0`; on an invalid one the entry is marked SOCKS_DELETE. -/
def connectorReadable (cfg : Config) (t : Nat) (env : EnvR)
    (e : SocksQueue_t) : SocksQueue_t :=
  match e.state with
  | SockState.s4aSent =>
    if socks_rec_response env.rd = 0 then { e with state := SockState.delete }
    else socks_reschedule cfg t e
  | SockState.s5greetSent =>
    if socks5_greet_response env.rd ≠ 0 then socks_reschedule cfg t e
    else if env.sendOk then { e with state := SockState.s5reqSent }
    else socks_reschedule cfg t e
  | SockState.s5reqSent =>
    if socks5_rec_response env.rd = 0 then { e with state := SockState.delete }
    else socks_reschedule cfg t e
  | SockState.dnsSent =>
    if env.dnsOk then
      { e with state := SockState.new, retry := 0, restartTime := 0 }
    else { e with state := SockState.delete }
  | SockState.delete => e
  | _ => socks_reset e   -- "unknown state ... in read set"

/-- One event in the lifetime of a single queue entry: a phase-A visit at
wall time `t`, a writable dispatch, or a readable dispatch. -/
inductive Ev where
  | a (t : Nat) (env : EnvA)
  | w (t : Nat) (env : EnvW)
  | r (t : Nat) (env : EnvR)
deriving Repr

/-- Apply one event to an entry. -/
def stepEv (cfg : Config) (e : SocksQueue_t) : Ev → SocksQueue_t
  | Ev.a t env => connectorPhaseA cfg t env e
  | Ev.w t env => (connectorWritable cfg t env e).1
  | Ev.r t env => connectorReadable cfg t env e

/-- Run an entry through a sequence of reactor events. -/
def runEntry (cfg : Config) (e : SocksQueue_t) : List Ev → SocksQueue_t
  | [] => e
  | ev :: evs => runEntry cfg (stepEv cfg e ev) evs

/-- A freshly enqueued entry: the pipe record is `memset` to zero by the
writers (`socks_queue`, ocatsocks.c:310) before `addr` and `perm` are
filled in, and `socks_enqueue` copies it verbatim. -/
def entryInit (addr : Nat) (perm : Bool) : SocksQueue_t :=
  { addr := addr, perm := perm, state := SockState.new, fd := 0, retry := 0,
    connectTime := 0, restartTime := 0, nsAddr := 0, id := 0, attempts := 0 }

/-- `socks_get_req` (ocatsocks.c:272): linear scan of the queue for the first
entry with the given address. -/
def socks_get_req (addr : Nat) (q : List SocksQueue_t) :
    Option SocksQueue_t :=
  q.find? (fun e => e.addr == addr)

/-- `socks_enqueue` (ocatsocks.c:286): no-op if the address is already
queued, otherwise copy the template and link it at the head. -/
def socks_enqueue (sq : SocksQueue_t) (q : List SocksQueue_t) :
    List SocksQueue_t :=
  match socks_get_req sq.addr q with
  | some _ => q
  | none => sq :: q

/-- The reap walk at the end of each reactor iteration
(ocatsocks.c:1027-1039), translated with an explicit cursor index:
`for (squeue = socks_queue_; squeue; squeue = squeue->next)` — on a
SOCKS_DELETE entry, `socks_unqueue` unlinks exactly the cursor node, the
cursor is reset to the (new) head and the `for` increment then advances it to
index 1. -/
def reapAux (q : List SocksQueue_t) (i : Nat) : List SocksQueue_t :=
  if h : i < q.length then
    if (q.get ⟨i, h⟩).state = SockState.delete then
      let q2 := q.eraseIdx i
      if q2.isEmpty then q2 else reapAux q2 1
    else reapAux q (i + 1)
  else q
termination_by (q.length, q.length - i)
decreasing_by
  · simp only [q.length_eraseIdx_of_lt h]
    exact Prod.Lex.left _ _ (by omega)
  · exact Prod.Lex.right _ (by omega)

/-- The full reap walk starts at the queue head. -/
def reap (q : List SocksQueue_t) : List SocksQueue_t :=
  reapAux q 0

/-- Phase A of one reactor iteration: visit every queued entry in order,
with a per-entry oracle (the default all-failure oracle when the list runs
out). -/
def phaseAList (cfg : Config) (t : Nat) :
    List EnvA → List SocksQueue_t → List SocksQueue_t
  | _, [] => []
  | envs, e :: rest =>
    connectorPhaseA cfg t (envs.headD defaultEnvA) e ::
      phaseAList cfg t envs.tail rest

/-- Phase B of one reactor iteration: per entry, an optional writable event
followed — unless the writable handler executed `continue` — by an optional
readable event. -/
def phaseBStep (cfg : Config) (t : Nat)
    (ev : Option EnvW × Option EnvR) (e : SocksQueue_t) : SocksQueue_t :=
  let (e1, skipped) :=
    match ev.1 with
    | some w => connectorWritable cfg t w e
    | none => (e, false)
  if skipped then e1
  else
    match ev.2 with
    | some r => connectorReadable cfg t r e1
    | none => e1

/-- Phase B over the queue. -/
def phaseBList (cfg : Config) (t : Nat) :
    List (Option EnvW × Option EnvR) → List SocksQueue_t →
    List SocksQueue_t
  | _, [] => []
  | evs, e :: rest =>
    phaseBStep cfg t (evs.headD (none, none)) e ::
      phaseBList cfg t evs.tail rest

/-- A record read from the request pipe.  The C record is a full
`SocksQueue_t` whose remaining fields the writers zero; `next` is the
overloaded pointer slot (an `intptr_t`-smuggled file descriptor when
non-NULL). -/
structure PipeRec where
  addr : Nat
  perm : Bool
  next : Option Nat
deriving DecidableEq, Repr

/-- How the reactor classifies a pipe record. -/
inductive PipeAction where
  | wakeup
  | introspect (fd : Nat)
  | enqueue (rec : PipeRec)
deriving DecidableEq, Repr

/-- The pipe-record dispatch of `socks_connector_sel` (ocatsocks.c:861-874):
`if (sq.next)` triggers the introspection dump, `else if`
`IN6_IS_ADDR_UNSPECIFIED(&sq.addr)` a wakeup, `else` an enqueue. -/
def dispatchPipe (r : PipeRec) : PipeAction :=
  match r.next with
  | some fd => PipeAction.introspect fd
  | none => if r.addr = 0 then PipeAction.wakeup else PipeAction.enqueue r

/-- The queue entry built from a pipe record (the record is copied verbatim;
its zeroed fields give a fresh entry). -/
def pipeRecEntry (r : PipeRec) : SocksQueue_t := entryInit r.addr r.perm

/-- Effect of one pipe record on the queue: the introspection dump
(`socks_output_queue`) and the wakeup leave the queue unchanged, an enqueue
record is passed to `socks_enqueue`. -/
def applyPipe (r : PipeRec) (q : List SocksQueue_t) : List SocksQueue_t :=
  match r.next with
  | some _ => q
  | none => if r.addr = 0 then q else socks_enqueue (pipeRecEntry r) q

/-- One full iteration of the reactor loop of `socks_connector_sel`
(ocatsocks.c:633-1040): phase-A state scan at wall time `tA`, the bounded
wait (not observable), at most one pipe record (`none` also covers a
truncated pipe read, which is ignored), the fd dispatch at wall time `tB`,
and the final reap walk. -/
def reactorIteration (cfg : Config) (tA tB : Nat) (envsA : List EnvA)
    (pipe : Option PipeRec) (envsB : List (Option EnvW × Option EnvR))
    (q : List SocksQueue_t) : List SocksQueue_t :=
  let q1 := phaseAList cfg tA envsA q
  let q2 := match pipe with | none => q1 | some r => applyPipe r q1
  let q3 := phaseBList cfg tB envsB q2
  reap q3

/-- The queue configurations reachable from the empty queue: the only
insertion is `socks_enqueue` (from the pipe drain), `socks_unqueue` removes
single entries, and the reactor mutates entries in place without ever
touching their `addr` field. -/
inductive QReach : List SocksQueue_t → Prop where
  | nil : QReach []
  | enq (sq : SocksQueue_t) (q : List SocksQueue_t) :
      QReach q → QReach (socks_enqueue sq q)
  | remove (l : List SocksQueue_t) (e : SocksQueue_t)
      (r : List SocksQueue_t) :
      QReach (l ++ e :: r) → QReach (l ++ r)
  | mutate (q q2 : List SocksQueue_t) :
      QReach q → q2.map SocksQueue_t.addr = q.map SocksQueue_t.addr →
      QReach q2

/-- The stack-local request of `synchron_socks_connect` (only `state` and
`fd` of the `SocksQueue_t` are live there). -/
structure SyncReq where
  state : SockState
  fd : Int
deriving DecidableEq, Repr

/-- Oracle for one iteration of the blocking loop of
`synchron_socks_connect`: `term` is `term_req()`, `sockfd` the `socket()`
result, `connOk` the success of `socks_tcp_connect`, `sendOk` /`send2Ok` the
success of the handshake writes, and `rd` the bytes obtained by the response
parser of the current state. -/
structure SyncEnv where
  term : Bool
  sockfd : Option Nat
  connOk : Bool
  sendOk : Bool
  send2Ok : Bool
  rd : Option (List Nat)
deriving DecidableEq, Repr

/-- Result of one loop body of `synchron_socks_connect`: either the loop
continues with an updated request, or the function returns (via
`rlr_exit`) with the request as it stands at the `return sq.fd`. -/
inductive SyncStep where
  | cont (sq : SyncReq)
  | exit (sq : SyncReq)
deriving DecidableEq, Repr

/-- One execution of the `switch (sq.state)` body of
`synchron_socks_connect` (ocatsocks.c:1061-1166), after the `term_req()`
check.  In SOCKS_NEW, a failed `socket()` stores `-1` in `sq.fd` and jumps
to `rlr_exit`; after a successful connect, `CNF(rand_addr)` jumps to
`rlr_exit` with the freshly connected fd, otherwise the state advances to
SOCKS_CONNECTING.  In SOCKS_CONNECTING a DIRECT connection type matches
neither `if` branch, so the state is left unchanged.  The `default` branch
sets SOCKS_DELETE, and SOCKS_DELETE closes the fd, stores `-1` and restarts
from SOCKS_NEW. -/
def synchronStep (cfg : Config) (env : SyncEnv) (sq : SyncReq) : SyncStep :=
  match sq.state with
  | SockState.new =>
    match env.sockfd with
    | none => SyncStep.exit { state := SockState.new, fd := -1 }
    | some fdn =>
      if env.connOk then
        if cfg.randAddr then
          SyncStep.exit { state := SockState.new, fd := (fdn : Int) }
        else SyncStep.cont { state := SockState.connecting, fd := (fdn : Int) }
      else SyncStep.cont { state := SockState.new, fd := (fdn : Int) }
  | SockState.connecting =>
    match cfg.mode with
    | ConnType.socks4a =>
      if env.sendOk then SyncStep.cont { sq with state := SockState.s4aSent }
      else SyncStep.cont { sq with state := SockState.delete }
    | ConnType.socks5 =>
      if env.sendOk then
        SyncStep.cont { sq with state := SockState.s5greetSent }
      else SyncStep.cont { sq with state := SockState.delete }
    | ConnType.direct => SyncStep.cont sq
  | SockState.s4aSent =>
    if socks_rec_response env.rd = 0 then
      SyncStep.cont { sq with state := SockState.ready }
    else SyncStep.cont { sq with state := SockState.delete }
  | SockState.s5greetSent =>
    if socks5_greet_response env.rd ≠ 0 then
      SyncStep.cont { sq with state := SockState.delete }
    else if env.send2Ok then
      SyncStep.cont { sq with state := SockState.s5reqSent }
    else SyncStep.cont { sq with state := SockState.delete }
  | SockState.s5reqSent =>
    if socks5_rec_response env.rd = 0 then
      SyncStep.cont { sq with state := SockState.ready }
    else SyncStep.cont { sq with state := SockState.delete }
  | SockState.delete =>
    SyncStep.cont { state := SockState.new, fd := -1 }
  | _ => SyncStep.cont { sq with state := SockState.delete }

/-- The `while (sq.state != SOCKS_READY)` loop of `synchron_socks_connect`,
driven by a finite oracle list (one element per loop iteration; `none` when
the oracle runs out before the loop ends).  The returned request is the one
in scope at `return sq.fd`; the C return value is its `fd`. -/
def synchronRun (cfg : Config) (sq : SyncReq) :
    List SyncEnv → Option SyncReq
  | [] => none
  | env :: rest =>
    if sq.state = SockState.ready then some sq
    else if env.term then some sq
    else
      match synchronStep cfg env sq with
      | SyncStep.exit out => some out
      | SyncStep.cont sq2 => synchronRun cfg sq2 rest

/-- The initial stack request of `synchron_socks_connect`
(ocatsocks.c:1048-1051): zeroed, then `state = SOCKS_NEW`, `fd = -1`. -/
def synchronInit : SyncReq := { state := SockState.new, fd := -1 }

/-! ## Claim theorems -/

/-- C6: `socks_rec_response`, applied to a full 8-byte SOCKS4a reply,
succeeds exactly when the version byte VN is 0 and the status byte CD is 90;
any other VN or CD, as well as a read shorter than 8 bytes (or a failed
read), yields failure `-1`. -/
theorem c6_socks4a_response (bs : List Nat) :
    (bs.length = 8 →
      (socks_rec_response (some bs) = 0 ↔
        bs.getD 0 0 = 0 ∧ bs.getD 1 0 = 90))
    ∧ (bs.length < 8 → socks_rec_response (some bs) = -1)
    ∧ socks_rec_response none = -1 := by
  refine ⟨?_, ?_, rfl⟩
  · intro h8
    by_cases h0 : bs.getD 0 0 = 0 <;> by_cases h1 : bs.getD 1 0 = 90 <;>
      simp [socks_rec_response, h8, h0, h1]
  · intro hlt
    simp [socks_rec_response, hlt]

/-- C6 witness: the canonical success reply `{0, 90, 0, 0, 0, 0, 0, 0}` is
accepted, by `c6_socks4a_response` applied at that concrete input. -/
theorem c6_witness :
    ([0, 90, 0, 0, 0, 0, 0, 0] : List Nat).length = 8 ∧
    socks_rec_response (some [0, 90, 0, 0, 0, 0, 0, 0]) = 0 :=
  ⟨by decide,
    ((c6_socks4a_response [0, 90, 0, 0, 0, 0, 0, 0]).1 (by decide)).mpr
      (by decide)⟩

/-- C5 counterexample: the 4-byte reply `{5, 0, 0, 1}` has length at least 4
and fields VER = 5, REP = 0, RSV = 0, yet `socks5_rec_response` rejects it
(the truncation check is against `sizeof(Socks5Hdr_t) = 5`), refuting the
claim that replies of length at least 4 with those fields are exactly the
accepted ones. -/
theorem c5_counterexample :
    ([5, 0, 0, 1] : List Nat).length ≥ 4 ∧
    ([5, 0, 0, 1] : List Nat).getD 0 0 = 5 ∧
    ([5, 0, 0, 1] : List Nat).getD 1 0 = 0 ∧
    ([5, 0, 0, 1] : List Nat).getD 2 0 = 0 ∧
    socks5_rec_response (some [5, 0, 0, 1]) ≠ 0 := by decide

/-- C5 (amended): `socks5_rec_response` succeeds exactly for received replies
of length at least 5 = `sizeof(Socks5Hdr_t)` (the reply header struct
includes a fifth byte beyond VER/REP/RSV/ATYP) whose fields satisfy VER = 5,
RSV = 0 and REP = 0; every other input — wrong VER, nonzero RSV, any other
REP, a read of fewer than 5 bytes or a failed read — yields `-1`, and in the
reactor a failed parse in state SOCKS_5REQ_SENT reschedules the entry. -/
theorem c5_socks5_response (rd : Option (List Nat)) :
    (socks5_rec_response rd = 0 ↔
      ∃ bs, rd = some bs ∧ 5 ≤ bs.length ∧ bs.getD 0 0 = 5 ∧
        bs.getD 2 0 = 0 ∧ bs.getD 1 0 = 0)
    ∧ (socks5_rec_response rd = 0 ∨ socks5_rec_response rd = -1)
    ∧ (∀ (cfg : Config) (t : Nat) (env : EnvR) (e : SocksQueue_t),
        e.state = SockState.s5reqSent → socks5_rec_response env.rd ≠ 0 →
        connectorReadable cfg t env e = socks_reschedule cfg t e) := by
  refine ⟨?_, ?_, ?_⟩
  · cases rd with
    | none => simp [socks5_rec_response]
    | some bs =>
      by_cases hl : bs.length < 5 <;>
        by_cases h0 : bs.getD 0 0 = 5 <;>
        by_cases h2 : bs.getD 2 0 = 0 <;>
        by_cases h1 : bs.getD 1 0 = 0 <;>
        simp [socks5_rec_response, hl, h0, h2, h1] <;> omega
  · cases rd with
    | none => simp [socks5_rec_response]
    | some bs =>
      simp only [socks5_rec_response]
      split_ifs <;> simp
  · intro cfg t env e hs hbad
    simp [connectorReadable, hs, hbad]

/-- C5 witness: applies `c5_socks5_response` at a concrete well-formed reply
and at a concrete rejected parse in the reactor. -/
theorem c5_witness :
    socks5_rec_response (some [5, 0, 0, 1, 0, 0]) = 0 ∧
    connectorReadable ⟨3, 2, 10, 30, false, false, false, ConnType.socks5⟩ 4
        { rd := none, sendOk := false, dnsOk := false }
        { entryInit 1 false with state := SockState.s5reqSent } =
      socks_reschedule ⟨3, 2, 10, 30, false, false, false, ConnType.socks5⟩ 4
        { entryInit 1 false with state := SockState.s5reqSent } :=
  ⟨(c5_socks5_response (some [5, 0, 0, 1, 0, 0])).1.mpr
      ⟨[5, 0, 0, 1, 0, 0], rfl, by decide, by decide, by decide, by decide⟩,
    (c5_socks5_response none).2.2 _ 4 _ _ rfl (by decide)⟩

/-- C2 counterexample: a pipe record whose `addr` is not the unspecified
address but whose `next` field is non-NULL is dispatched as an introspection
request, not enqueued — the reactor tests `sq.next` before looking at the
address, refuting the claim that every record with a non-unspecified `addr`
is enqueued. -/
theorem c2_counterexample :
    dispatchPipe { addr := 1, perm := false, next := some 5 } =
      PipeAction.introspect 5 ∧
    dispatchPipe { addr := 1, perm := false, next := some 5 } ≠
      PipeAction.enqueue { addr := 1, perm := false, next := some 5 } ∧
    applyPipe { addr := 1, perm := false, next := some 5 }
        [] = [] := by decide

/-- C2 (amended): the pipe dispatch checks the `next` field first — any
record with non-NULL `next` triggers an introspection dump to the smuggled
fd and leaves the queue unchanged, regardless of `addr`; among records with
NULL `next`, one with the unspecified address is a pure wakeup (no queue
change) and any other is enqueued through `socks_enqueue` (which
deduplicates by address). -/
theorem c2_pipe_dispatch (r : PipeRec) (q : List SocksQueue_t) :
    (∀ fd, r.next = some fd →
      dispatchPipe r = PipeAction.introspect fd ∧ applyPipe r q = q)
    ∧ (r.next = none → r.addr = 0 →
      dispatchPipe r = PipeAction.wakeup ∧ applyPipe r q = q)
    ∧ (r.next = none → r.addr ≠ 0 →
      dispatchPipe r = PipeAction.enqueue r ∧
        applyPipe r q = socks_enqueue (pipeRecEntry r) q) := by
  refine ⟨?_, ?_, ?_⟩
  · intro fd hn
    simp [dispatchPipe, applyPipe, hn]
  · intro hn h0
    simp [dispatchPipe, applyPipe, hn, h0]
  · intro hn h0
    simp [dispatchPipe, applyPipe, hn, h0]

/-- C2 witness: `c2_pipe_dispatch` applied to a concrete introspection
record, a concrete wakeup record and a concrete enqueue record. -/
theorem c2_witness :
    (dispatchPipe { addr := 0, perm := false, next := some 3 } =
      PipeAction.introspect 3 ∧
      applyPipe { addr := 0, perm := false, next := some 3 } [] = []) ∧
    (dispatchPipe { addr := 0, perm := false, next := none } =
      PipeAction.wakeup) ∧
    (applyPipe { addr := 7, perm := true, next := none } [] =
      socks_enqueue (pipeRecEntry { addr := 7, perm := true, next := none })
        []) :=
  ⟨(c2_pipe_dispatch { addr := 0, perm := false, next := some 3 } []).1 3 rfl,
    ((c2_pipe_dispatch { addr := 0, perm := false, next := none } []).2.1
      rfl (by decide)).1,
    ((c2_pipe_dispatch { addr := 7, perm := true, next := none } []).2.2
      rfl (by decide)).2⟩

/-- C7 counterexample: a queue entry can carry `fd = -1` (a failed
`socket()` call stores `-1`, ocatsocks.c:740), and on such an entry
`socks_reschedule` leaves `fd = -1`, not `0` — `socks_reset` only clears
file descriptors that are strictly positive. -/
theorem c7_counterexample :
    (socks_reschedule ⟨3, 2, 10, 30, false, false, false, ConnType.socks4a⟩
        5
        { addr := 9, perm := false, state := SockState.new, fd := -1,
          retry := 2, connectTime := 1, restartTime := 0, nsAddr := 0,
          id := 0, attempts := 0 }).fd = -1 ∧ ((-1 : Int) ≠ 0) := by decide

/-- C7 (amended): for every queue entry whose `fd` is non-negative — which
holds at every call site of `socks_reschedule` — rescheduling leaves the
entry with `fd = 0`, `state = SOCKS_NEW` and
`restart_time = now + TOR_SOCKS_CONN_TIMEOUT`, and preserves `retry`,
`addr`, `perm`, `connect_time` and the DNS sub-state; an entry with a
negative `fd` keeps it unchanged. -/
theorem c7_reschedule_frame (cfg : Config) (t : Nat) (e : SocksQueue_t)
    (h : 0 ≤ e.fd) :
    (socks_reschedule cfg t e).fd = 0 ∧
    (socks_reschedule cfg t e).state = SockState.new ∧
    (socks_reschedule cfg t e).restartTime = t + cfg.connTimeout ∧
    (socks_reschedule cfg t e).retry = e.retry ∧
    (socks_reschedule cfg t e).addr = e.addr ∧
    (socks_reschedule cfg t e).perm = e.perm ∧
    (socks_reschedule cfg t e).connectTime = e.connectTime ∧
    (socks_reschedule cfg t e).nsAddr = e.nsAddr ∧
    (socks_reschedule cfg t e).id = e.id := by
  unfold socks_reschedule socks_reset
  by_cases hf : e.fd > 0
  · simp [hf]
  · simp [hf]
    omega

/-- C7 witness: `c7_reschedule_frame` applied to a concrete entry holding an
open fd. -/
theorem c7_witness :
    (0 : Int) ≤ 7 ∧
    (socks_reschedule ⟨3, 2, 10, 30, false, false, false, ConnType.socks4a⟩
        11
        { addr := 9, perm := true, state := SockState.connecting, fd := 7,
          retry := 2, connectTime := 6, restartTime := 0, nsAddr := 4,
          id := 5, attempts := 1 }).fd = 0 :=
  ⟨by decide,
    (c7_reschedule_frame ⟨3, 2, 10, 30, false, false, false,
        ConnType.socks4a⟩ 11
      { addr := 9, perm := true, state := SockState.connecting, fd := 7,
        retry := 2, connectTime := 6, restartTime := 0, nsAddr := 4,
        id := 5, attempts := 1 } (by decide)).1⟩

/-- The TCP-connect tail can only leave the entry in its previous state
(skip paths, failed socket) or in SOCKS_CONNECTING or — after a reschedule —
SOCKS_NEW. -/
theorem tcpConnectPart_state (cfg : Config) (t : Nat) (env : EnvA)
    (e : SocksQueue_t) :
    (tcpConnectPart cfg t env e).state = e.state ∨
    (tcpConnectPart cfg t env e).state = SockState.connecting ∨
    (tcpConnectPart cfg t env e).state = SockState.new := by
  unfold tcpConnectPart socks_reschedule socks_reset
  rcases htcp : env.tcpSock with _ | tfd <;> simp only [htcp] <;>
    split_ifs <;> simp

/-- A phase-A visit of a SOCKS_NEW entry whose retry counter is already
positive can never move it to SOCKS_DNS_SENT: the lookup branch is gated on
the post-increment counter being at most 1. -/
theorem phaseA_new_no_dns (cfg : Config) (t : Nat) (env : EnvA)
    (x : SocksQueue_t) (hx : x.state = SockState.new) (hr : 1 ≤ x.retry) :
    (connectorPhaseA cfg t env x).state ≠ SockState.dnsSent := by
  have htcp : ∀ y : SocksQueue_t, y.state = SockState.new →
      (tcpConnectPart cfg t env y).state ≠ SockState.dnsSent := by
    intro y hy
    rcases tcpConnectPart_state cfg t env y with h | h | h <;>
      rw [h] <;> simp [hy]
  by_cases h0 : t < x.restartTime
  · simp [connectorPhaseA, hx, h0]
  · by_cases h1 : x.perm = false ∧ x.retry + 1 > cfg.maxRetry
    · simp [connectorPhaseA, hx, h0, h1]
    · have hr0 : ¬ x.retry = 0 := by omega
      have hh := htcp { x with retry := x.retry + 1 } (by simp [hx])
      simpa [connectorPhaseA, hx, h0, h1, hr0] using hh

/-- C8: for an entry in SOCKS_DNS_SENT whose restart time has elapsed and
whose DNS retry budget is exhausted (or whose resend fails), the phase-A
scan sets `state = NEW`, `restart_time = 0`, `retry = 1` (the UDP fd is
closed; the field keeps its value as in the source); on any following NEW
pass the DNS-lookup branch — gated on the post-increment retry counter being
at most 1 — is skipped, so the entry can never re-enter SOCKS_DNS_SENT, and
with a successful socket and connect it proceeds to SOCKS_CONNECTING using
the algorithmically derived name. -/
theorem c8_dns_exhaustion (cfg : Config) (t : Nat) (env : EnvA)
    (e : SocksQueue_t) (hs : e.state = SockState.dnsSent)
    (ht : e.restartTime ≤ t)
    (hex : cfg.dnsRetry ≤ e.retry ∨ env.dnsReqOk = false) :
    connectorPhaseA cfg t env e =
      { e with state := SockState.new, restartTime := 0, retry := 1 } ∧
    (∀ (t2 : Nat) (env2 : EnvA),
      (connectorPhaseA cfg t2 env2
        { e with state := SockState.new, restartTime := 0,
                 retry := 1 }).state ≠ SockState.dnsSent) ∧
    (∀ (t2 : Nat) (env2 : EnvA) (tfd : Nat),
      env2.tcpSock = some tfd → env2.connOk = true →
      (e.perm = true ∨ 2 ≤ cfg.maxRetry) →
      (cfg.mode = ConnType.socks4a ∨ cfg.mode = ConnType.socks5) →
      connectorPhaseA cfg t2 env2
        { e with state := SockState.new, restartTime := 0, retry := 1 } =
      { e with state := SockState.connecting, restartTime := 0, retry := 2,
               fd := (tfd : Int), connectTime := t2,
               attempts := e.attempts + 1 }) := by
  refine ⟨?_, ?_, ?_⟩
  · have hlt : ¬ t < e.restartTime := by omega
    rcases hex with hx | hx <;>
      simp [connectorPhaseA, hs, hlt, hx]
  · intro t2 env2
    exact phaseA_new_no_dns cfg t2 env2 _ (by simp) (by simp)
  · intro t2 env2 tfd hsock hconn hnp hmode
    have hmd : ¬ cfg.mode = ConnType.direct := by
      rcases hmode with h | h <;> simp [h]
    rcases hnp with hp | hp
    · simp [connectorPhaseA, tcpConnectPart, socks_reschedule, socks_reset,
        hp, hmd, hsock, hconn]
    · have hgt : ¬ cfg.maxRetry < 2 := by omega
      simp [connectorPhaseA, tcpConnectPart, socks_reschedule, socks_reset,
        hgt, hmd, hsock, hconn]

/-- C8 witness: `c8_dns_exhaustion` applied to a concrete DNS_SENT entry
with an exhausted retry budget. -/
theorem c8_witness :
    ({ entryInit 9 true with
        state := SockState.dnsSent, fd := 4,
        retry := 2 } : SocksQueue_t).state = SockState.dnsSent ∧
    connectorPhaseA ⟨3, 2, 10, 30, true, false, false, ConnType.socks4a⟩ 20
        defaultEnvA
        { entryInit 9 true with
          state := SockState.dnsSent, fd := 4, retry := 2 } =
      { entryInit 9 true with
        state := SockState.new, fd := 4, restartTime := 0, retry := 1 } :=
  ⟨by decide,
    by
      have h := (c8_dns_exhaustion
        ⟨3, 2, 10, 30, true, false, false, ConnType.socks4a⟩ 20 defaultEnvA
        { entryInit 9 true with
          state := SockState.dnsSent, fd := 4, retry := 2 }
        (by decide) (by decide) (Or.inl (by decide))).1
      simpa using h⟩

/-- C10: `get_hostname` with a non-NULL buffer always writes a destination
name (the hosts-file name on lookup success, otherwise the algorithmic
`ipv6tonion` name with the configured domain suffix), its return value does
not depend on the buffer arguments, and it is `-1` exactly when the
hosts-file lookup did not succeed; consequently the DIRECT-mode NEW handler,
which skips on a `-1` return, leaves such an entry unchanged apart from the
incremented retry counter — no connect attempt is made even though a
fallback name was written. -/
theorem c10_get_hostname (hl : Bool) (hn : Option String) (dn : String)
    (b : Bool) :
    ((get_hostname hl hn dn true).2.isSome = true)
    ∧ (¬(hl = true ∧ hn.isSome = true) →
        (get_hostname hl hn dn true).2 = some dn)
    ∧ ((get_hostname hl hn dn b).1 = (get_hostname hl hn "" false).1)
    ∧ ((get_hostname hl hn dn b).1 = -1 ↔ ¬(hl = true ∧ hn.isSome = true))
    ∧ (∀ (cfg : Config) (t : Nat) (env : EnvA) (e : SocksQueue_t),
        cfg.mode = ConnType.direct → cfg.dnsLookup = false →
        e.state = SockState.new → e.restartTime ≤ t →
        ¬(e.perm = false ∧ e.retry + 1 > cfg.maxRetry) →
        hostKnown cfg env = false →
        connectorPhaseA cfg t env e = { e with retry := e.retry + 1 } ∧
        (connectorPhaseA cfg t env e).attempts = e.attempts) := by
  refine ⟨?_, ?_, ?_, ?_, ?_⟩
  · cases hl <;> cases hn <;> simp [get_hostname]
  · cases hl <;> cases hn <;> simp [get_hostname]
  · cases hl <;> cases hn <;> simp [get_hostname]
  · cases hl <;> cases hn <;> simp [get_hostname]
  · intro cfg t env e hdm hdl hst hrt hnp hhk
    have hlt : ¬ t < e.restartTime := by omega
    have hres : connectorPhaseA cfg t env e = { e with retry := e.retry + 1 } := by
      simp [connectorPhaseA, tcpConnectPart, hst, hlt, hnp, hdl, hdm, hhk]
    exact ⟨hres, by rw [hres]⟩

/-- C10 witness: `c10_get_hostname` applied with a failed hosts lookup and a
concrete DIRECT-mode entry. -/
theorem c10_witness :
    (get_hostname false none "aaa.onion" true).2 = some "aaa.onion" ∧
    connectorPhaseA ⟨3, 2, 10, 30, false, false, false, ConnType.direct⟩ 5
        defaultEnvA (entryInit 9 true) =
      { entryInit 9 true with retry := 1 } :=
  ⟨(c10_get_hostname false none "aaa.onion" true).2.1 (by decide),
    by
      have h := ((c10_get_hostname false none "aaa.onion" true).2.2.2.2
        ⟨3, 2, 10, 30, false, false, false, ConnType.direct⟩ 5 defaultEnvA
        (entryInit 9 true) rfl rfl rfl (by decide) (by decide)
        (by decide)).1
      simpa using h⟩

/-- C9: `socks_enqueue` is a no-op when the queue already holds an entry
with the template's address, otherwise it links a copy of the template at
the head; consequently every queue reachable through the queue operations
(insertions only via `socks_enqueue`, removals via `socks_unqueue`, in-place
reactor mutations that never touch `addr`) holds at most one entry per
address. -/
theorem c9_enqueue_unique :
    (∀ (sq : SocksQueue_t) (q : List SocksQueue_t),
      (socks_get_req sq.addr q).isSome = true → socks_enqueue sq q = q)
    ∧ (∀ (sq : SocksQueue_t) (q : List SocksQueue_t),
      socks_get_req sq.addr q = none → socks_enqueue sq q = sq :: q)
    ∧ (∀ q : List SocksQueue_t, QReach q →
      (q.map SocksQueue_t.addr).Nodup) := by
  refine ⟨?_, ?_, ?_⟩
  · intro sq q h
    unfold socks_enqueue
    rcases hf : socks_get_req sq.addr q with _ | x
    · rw [hf] at h
      simp at h
    · rfl
  · intro sq q h
    unfold socks_enqueue
    rw [h]
  · intro q h
    induction h with
    | nil => simp
    | enq sq q hq ih =>
      unfold socks_enqueue
      rcases hf : socks_get_req sq.addr q with _ | x
      · have hnm := List.find?_eq_none.mp hf
        simp only [List.map_cons, List.nodup_cons]
        refine ⟨?_, ih⟩
        intro hmem
        rcases List.mem_map.mp hmem with ⟨y, hy, hay⟩
        exact hnm y hy (by simp [hay])
      · exact ih
    | remove l e r hq ih =>
      have hsub : List.Sublist ((l ++ r).map SocksQueue_t.addr)
          ((l ++ e :: r).map SocksQueue_t.addr) :=
        List.Sublist.map _ (List.Sublist.append (List.Sublist.refl l)
          (List.sublist_cons_self e r))
      exact ih.sublist hsub
    | mutate q q2 hq heq ih =>
      rw [heq]
      exact ih

/-- C9 witness: `c9_enqueue_unique` applied to concrete queues — enqueueing
a duplicate address is a no-op, a fresh address is linked at the head, and a
concretely reachable queue has pairwise distinct addresses. -/
theorem c9_witness :
    socks_enqueue (entryInit 1 true) [entryInit 1 false] =
      [entryInit 1 false] ∧
    socks_enqueue (entryInit 2 true) [entryInit 1 false] =
      [entryInit 2 true, entryInit 1 false] ∧
    ((socks_enqueue (entryInit 2 true)
        (socks_enqueue (entryInit 1 false) [])).map
      SocksQueue_t.addr).Nodup :=
  ⟨c9_enqueue_unique.1 (entryInit 1 true) [entryInit 1 false] (by decide),
    c9_enqueue_unique.2.1 (entryInit 2 true) [entryInit 1 false] (by decide),
    c9_enqueue_unique.2.2 _
      (QReach.enq _ _ (QReach.enq _ _ QReach.nil))⟩

/-- C3 counterexample: with `rand_addr` set, a run of
`synchron_socks_connect` whose first `socket()`/`connect()` both succeed
returns the freshly connected fd (here 7) — a non-negative value, not the
failure value `-1` of the other abort paths — without the state ever
reaching SOCKS_READY, refuting the claim that a failure value is returned. -/
theorem c3_counterexample :
    synchronRun ⟨3, 2, 10, 30, false, false, true, ConnType.socks5⟩
        synchronInit [⟨false, some 7, true, false, false, none⟩] =
      some { state := SockState.new, fd := 7 } ∧
    ((7 : Int) ≠ -1) ∧ SockState.new ≠ SockState.ready := by decide

/-- Exits of the `synchron_socks_connect` loop body: when `rand_addr` is not
set, the only `goto rlr_exit` inside the switch is the socket-creation
failure, which returns with `fd = -1`. -/
theorem synchronStep_exit (cfg : Config) (env : SyncEnv) (sq out : SyncReq)
    (hr : cfg.randAddr = false)
    (h : synchronStep cfg env sq = SyncStep.exit out) : out.fd = -1 := by
  obtain ⟨st, f⟩ := sq
  unfold synchronStep at h
  cases st <;> dsimp only at h
  · rcases hsf : env.sockfd with _ | fdn <;> rw [hsf] at h <;> dsimp only at h
    · injection h with h2
      rw [← h2]
    · split_ifs at h with h1 h2
      rw [hr] at h2
      cases h2
  · cases hcm : cfg.mode <;> rw [hcm] at h <;> dsimp only at h <;>
      first
        | split_ifs at h
        | cases h
  · split_ifs at h
  · split_ifs at h
  · split_ifs at h
  · cases h
  · cases h
  · cases h

/-- C3 (amended): if `rand_addr` is set, `synchron_socks_connect` skips the
loopback handshake and returns immediately after the first successful
connect — but the returned value is the raw connected socket's fd (a
non-negative value, the connection never handshaken or READY), not a failure
value; without `rand_addr` (and absent termination requests) the function
returns either upon reaching SOCKS_READY or with `-1` after a
socket-creation failure. -/
theorem c3_rand_addr (cfg : Config) :
    (∀ (env : SyncEnv) (sq : SyncReq) (fdn : Nat),
      cfg.randAddr = true → sq.state = SockState.new →
      env.sockfd = some fdn → env.connOk = true →
      synchronStep cfg env sq =
        SyncStep.exit { state := SockState.new, fd := (fdn : Int) })
    ∧ (∀ (envs : List SyncEnv) (sq out : SyncReq),
      cfg.randAddr = false → (∀ env ∈ envs, env.term = false) →
      synchronRun cfg sq envs = some out →
      out.state = SockState.ready ∨ out.fd = -1) := by
  constructor
  · intro env sq fdn hrand hst hsf hconn
    obtain ⟨st, f⟩ := sq
    dsimp only at hst
    subst hst
    unfold synchronStep
    rw [hsf]
    simp [hconn, hrand]
  · intro envs
    induction envs with
    | nil =>
      intro sq out hr hterm h
      simp [synchronRun] at h
    | cons env rest ih =>
      intro sq out hr hterm h
      simp only [synchronRun] at h
      by_cases hready : sq.state = SockState.ready
      · rw [if_pos hready] at h
        simp only [Option.some.injEq] at h
        subst h
        exact Or.inl hready
      · rw [if_neg hready] at h
        have hte : env.term = false := hterm env (List.mem_cons_self env rest)
        rw [hte] at h
        simp only [Bool.false_eq_true, if_false] at h
        rcases hstep : synchronStep cfg env sq with sq2 | out2 <;>
          rw [hstep] at h
        · exact ih sq2 out hr
            (fun e he => hterm e (List.mem_cons_of_mem _ he)) h
        · simp only [Option.some.injEq] at h
          subst h
          exact Or.inr (synchronStep_exit cfg env sq out2 hr hstep)

/-- C3 witness: `c3_rand_addr` applied at a concrete rand-addr config and
step, and at a concrete rand-addr-free run that reaches SOCKS_READY. -/
theorem c3_witness :
    synchronStep ⟨3, 2, 10, 30, false, false, true, ConnType.socks5⟩
        ⟨false, some 7, true, false, false, none⟩ synchronInit =
      SyncStep.exit { state := SockState.new, fd := 7 } ∧
    (({ state := SockState.ready, fd := 5 } : SyncReq).state =
        SockState.ready ∨
      ({ state := SockState.ready, fd := 5 } : SyncReq).fd = -1) :=
  ⟨(c3_rand_addr ⟨3, 2, 10, 30, false, false, true, ConnType.socks5⟩).1
      ⟨false, some 7, true, false, false, none⟩ synchronInit 7 rfl rfl rfl
      rfl,
    (c3_rand_addr ⟨3, 2, 10, 30, false, false, false, ConnType.socks5⟩).2
      [⟨false, none, false, false, false, none⟩]
      { state := SockState.ready, fd := 5 }
      { state := SockState.ready, fd := 5 } rfl (by decide) (by decide)⟩

/-- Invariant carrying the attempt bound for a non-permanent entry: the
ghost attempt counter never exceeds the retry counter nor SOCKS_MAX_RETRY,
and an entry sitting in SOCKS_DNS_SENT has made no connect attempt yet (the
lookup branch is entered only on the first pass, before any attempt). -/
def C4Inv (cfg : Config) (e : SocksQueue_t) : Prop :=
  e.perm = false ∧ e.attempts ≤ e.retry ∧
  (e.state = SockState.dnsSent → e.attempts = 0) ∧
  e.attempts ≤ cfg.maxRetry

/-- `socks_reset` does not touch `perm`, `retry` or the attempt counter and
returns the entry to SOCKS_NEW. -/
theorem socks_reset_fields (e : SocksQueue_t) :
    (socks_reset e).perm = e.perm ∧ (socks_reset e).retry = e.retry ∧
    (socks_reset e).attempts = e.attempts ∧
    (socks_reset e).state = SockState.new := by
  unfold socks_reset
  split_ifs <;> simp

/-- `socks_reschedule` does not touch `perm`, `retry` or the attempt counter
and returns the entry to SOCKS_NEW. -/
theorem socks_reschedule_fields (cfg : Config) (t : Nat)
    (e : SocksQueue_t) :
    (socks_reschedule cfg t e).perm = e.perm ∧
    (socks_reschedule cfg t e).retry = e.retry ∧
    (socks_reschedule cfg t e).attempts = e.attempts ∧
    (socks_reschedule cfg t e).state = SockState.new := by
  unfold socks_reschedule socks_reset
  split_ifs <;> simp

/-- The TCP-connect tail preserves the attempt-bound invariant whenever the
incremented retry counter leaves room for one more attempt. -/
theorem C4Inv_tcp (cfg : Config) (t : Nat) (env : EnvA) (x : SocksQueue_t)
    (hp : x.perm = false) (ha : x.attempts + 1 ≤ x.retry)
    (hm : x.retry ≤ cfg.maxRetry) (hs : x.state = SockState.new) :
    C4Inv cfg (tcpConnectPart cfg t env x) := by
  unfold C4Inv tcpConnectPart socks_reschedule socks_reset
  rcases htcp : env.tcpSock with _ | tfd <;> simp only [htcp] <;>
    split_ifs <;> simp [hp, hs] <;> omega

/-- One phase-A visit preserves the attempt-bound invariant. -/
theorem C4Inv_phaseA (cfg : Config) (t : Nat) (env : EnvA)
    (e : SocksQueue_t) (h : C4Inv cfg e) :
    C4Inv cfg (connectorPhaseA cfg t env e) := by
  obtain ⟨hp, ha, hd, hm⟩ := h
  rcases hst : e.state with _ | _ | _ | _ | _ | _ | _ | _
  case new =>
    by_cases h0 : t < e.restartTime
    · simpa [connectorPhaseA, hst, h0] using ⟨hp, ha, hd, hm⟩
    · by_cases h1 : e.perm = false ∧ e.retry + 1 > cfg.maxRetry
      · simp only [connectorPhaseA, hst, h0, h1, if_neg, if_pos, if_true,
          if_false]
        simp [C4Inv, hp]
        omega
      · have hm2 : e.retry + 1 ≤ cfg.maxRetry := by
          rcases Nat.lt_or_ge cfg.maxRetry (e.retry + 1) with hlt | hge
          · exact absurd ⟨hp, hlt⟩ h1
          · exact hge
        by_cases h2 : cfg.dnsLookup = true ∧ hostKnown cfg env = false ∧
            e.retry = 0
        · have ha0 : e.attempts = 0 := by omega
          have hm0 : ¬ cfg.maxRetry = 0 := by omega
          rcases hu : env.udpSock with _ | ufd
          · have := C4Inv_tcp cfg t env
              { e with fd := -1, retry := e.retry + 1 }
              (by simp [hp]) (by simp; omega) (by simpa using hm2)
              (by simp [hst])
            simpa [connectorPhaseA, hst, h0, h1, h2, hu, hm0] using this
          · by_cases hreq : env.dnsReqOk = true
            · simp [connectorPhaseA, hst, h0, h1, h2, hu, hreq, hm0, C4Inv,
                hp, ha0]
            · have := C4Inv_tcp cfg t env
                { e with fd := (ufd : Int), id := env.rndId,
                         nsAddr := env.nsAddr, retry := e.retry + 1 }
                (by simp [hp]) (by simp; omega) (by simpa using hm2)
                (by simp [hst])
              simpa [connectorPhaseA, hst, h0, h1, h2, hu, hreq, hm0]
                using this
        · have := C4Inv_tcp cfg t env { e with retry := e.retry + 1 }
            (by simp [hp]) (by simp; omega) (by simpa using hm2)
            (by simp [hst])
          simpa [connectorPhaseA, hst, h0, h1, h2] using this
  case s4aSent =>
    simpa [connectorPhaseA, hst] using ⟨hp, ha, hd, hm⟩
  case s5greetSent =>
    simpa [connectorPhaseA, hst] using ⟨hp, ha, hd, hm⟩
  case s5reqSent =>
    simpa [connectorPhaseA, hst] using ⟨hp, ha, hd, hm⟩
  case dnsSent =>
    have ha0 : e.attempts = 0 := hd hst
    by_cases h0 : t < e.restartTime
    · simpa [connectorPhaseA, hst, h0] using ⟨hp, ha, hd, hm⟩
    · by_cases h1 : e.retry < cfg.dnsRetry ∧ env.dnsReqOk = true
      · simp [connectorPhaseA, hst, h0, h1, C4Inv, hp, ha0]
      · simp [connectorPhaseA, hst, h0, h1, C4Inv, hp, ha0]
  case delete =>
    simpa [connectorPhaseA, hst] using ⟨hp, ha, hd, hm⟩
  case connecting =>
    simp only [connectorPhaseA, hst]
    obtain ⟨f1, f2, f3, f4⟩ := socks_reset_fields e
    exact ⟨f1.trans hp, by omega, by simp [f4], by omega⟩
  case ready =>
    simp only [connectorPhaseA, hst]
    obtain ⟨f1, f2, f3, f4⟩ := socks_reset_fields e
    exact ⟨f1.trans hp, by omega, by simp [f4], by omega⟩

/-- A writable dispatch preserves the attempt-bound invariant. -/
theorem C4Inv_writable (cfg : Config) (t : Nat) (env : EnvW)
    (e : SocksQueue_t) (h : C4Inv cfg e) :
    C4Inv cfg (connectorWritable cfg t env e).1 := by
  obtain ⟨hp, ha, hd, hm⟩ := h
  obtain ⟨f1, f2, f3, f4⟩ := socks_reschedule_fields cfg t e
  have hres : C4Inv cfg (socks_reschedule cfg t e) :=
    ⟨f1.trans hp, by omega, by simp [f4], by omega⟩
  unfold connectorWritable
  by_cases hst : e.state = SockState.connecting
  · rw [if_pos hst]
    by_cases hse : env.soErr = true
    · rw [if_pos hse]
      exact hres
    · rw [if_neg hse]
      rcases hcm : cfg.mode <;> dsimp only
      · by_cases hw : env.sendOk = true
        · rw [if_pos hw]
          exact ⟨hp, ha, by simp, hm⟩
        · rw [if_neg hw]
          exact hres
      · by_cases hw : env.sendOk = true
        · rw [if_pos hw]
          exact ⟨hp, ha, by simp, hm⟩
        · rw [if_neg hw]
          exact hres
      · exact ⟨hp, ha, by simp, hm⟩
  · rw [if_neg hst]
    exact ⟨hp, ha, hd, hm⟩

/-- A readable dispatch preserves the attempt-bound invariant. -/
theorem C4Inv_readable (cfg : Config) (t : Nat) (env : EnvR)
    (e : SocksQueue_t) (h : C4Inv cfg e) :
    C4Inv cfg (connectorReadable cfg t env e) := by
  obtain ⟨hp, ha, hd, hm⟩ := h
  obtain ⟨f1, f2, f3, f4⟩ := socks_reschedule_fields cfg t e
  obtain ⟨g1, g2, g3, g4⟩ := socks_reset_fields e
  have hres : C4Inv cfg (socks_reschedule cfg t e) :=
    ⟨f1.trans hp, by omega, by simp [f4], by omega⟩
  have hrst : C4Inv cfg (socks_reset e) :=
    ⟨g1.trans hp, by omega, by simp [g4], by omega⟩
  rcases hst : e.state with _ | _ | _ | _ | _ | _ | _ | _
  case s4aSent =>
    by_cases hio : socks_rec_response env.rd = 0
    · have hstep : connectorReadable cfg t env e =
          { e with state := SockState.delete } := by
        simp [connectorReadable, hst, hio]
      rw [hstep]
      exact ⟨hp, ha, by simp, hm⟩
    · have hstep : connectorReadable cfg t env e =
          socks_reschedule cfg t e := by
        simp [connectorReadable, hst, hio]
      rw [hstep]
      exact hres
  case s5greetSent =>
    by_cases hio : socks5_greet_response env.rd = 0
    · by_cases hw : env.sendOk = true
      · have hstep : connectorReadable cfg t env e =
            { e with state := SockState.s5reqSent } := by
          simp [connectorReadable, hst, hio, hw]
        rw [hstep]
        exact ⟨hp, ha, by simp, hm⟩
      · have hstep : connectorReadable cfg t env e =
            socks_reschedule cfg t e := by
          simp [connectorReadable, hst, hio, hw]
        rw [hstep]
        exact hres
    · have hstep : connectorReadable cfg t env e =
          socks_reschedule cfg t e := by
        simp [connectorReadable, hst, hio]
      rw [hstep]
      exact hres
  case s5reqSent =>
    by_cases hio : socks5_rec_response env.rd = 0
    · have hstep : connectorReadable cfg t env e =
          { e with state := SockState.delete } := by
        simp [connectorReadable, hst, hio]
      rw [hstep]
      exact ⟨hp, ha, by simp, hm⟩
    · have hstep : connectorReadable cfg t env e =
          socks_reschedule cfg t e := by
        simp [connectorReadable, hst, hio]
      rw [hstep]
      exact hres
  case dnsSent =>
    have ha0 : e.attempts = 0 := hd hst
    by_cases hio : env.dnsOk = true
    · have hstep : connectorReadable cfg t env e =
          { e with state := SockState.new, retry := 0,
                   restartTime := 0 } := by
        simp [connectorReadable, hst, hio]
      rw [hstep]
      exact ⟨hp, by simp [ha0], by simp, by simpa using hm⟩
    · have hstep : connectorReadable cfg t env e =
          { e with state := SockState.delete } := by
        simp [connectorReadable, hst, hio]
      rw [hstep]
      exact ⟨hp, ha, by simp, hm⟩
  case delete =>
    have hstep : connectorReadable cfg t env e = e := by
      simp [connectorReadable, hst]
    rw [hstep]
    exact ⟨hp, ha, hd, hm⟩
  case new =>
    have hstep : connectorReadable cfg t env e = socks_reset e := by
      simp [connectorReadable, hst]
    rw [hstep]
    exact hrst
  case connecting =>
    have hstep : connectorReadable cfg t env e = socks_reset e := by
      simp [connectorReadable, hst]
    rw [hstep]
    exact hrst
  case ready =>
    have hstep : connectorReadable cfg t env e = socks_reset e := by
      simp [connectorReadable, hst]
    rw [hstep]
    exact hrst

/-- Any reactor event preserves the attempt-bound invariant. -/
theorem C4Inv_step (cfg : Config) (e : SocksQueue_t) (ev : Ev)
    (h : C4Inv cfg e) : C4Inv cfg (stepEv cfg e ev) := by
  cases ev with
  | a t env => exact C4Inv_phaseA cfg t env e h
  | w t env => exact C4Inv_writable cfg t env e h
  | r t env => exact C4Inv_readable cfg t env e h

/-- The invariant is preserved along any event sequence. -/
theorem C4Inv_run (cfg : Config) (e : SocksQueue_t) (evs : List Ev)
    (h : C4Inv cfg e) : C4Inv cfg (runEntry cfg e evs) := by
  induction evs generalizing e with
  | nil => exact h
  | cons ev rest ih => exact ih (stepEv cfg e ev) (C4Inv_step cfg e ev h)

/-- C4: a non-permanent entry, from its creation by enqueue through any
sequence of reactor events (phase-A passes, writable and readable
dispatches, DNS-probe excursions with their retry resets included), makes at
most `SOCKS_MAX_RETRY + 1` connect attempts — in fact at most
`SOCKS_MAX_RETRY` — before it is removed. -/
theorem c4_attempt_bound (cfg : Config) (addr : Nat) (evs : List Ev) :
    (runEntry cfg (entryInit addr false) evs).attempts ≤
      cfg.maxRetry + 1 := by
  have h := C4Inv_run cfg (entryInit addr false) evs
    ⟨rfl, Nat.le_refl 0, fun _ => rfl, Nat.zero_le _⟩
  exact Nat.le_trans h.2.2.2 (Nat.le_succ _)

/-- C1: evaluation of one full reactor iteration at the failing input.  Two
temporary entries with `retry = SOCKS_MAX_RETRY` (here 3) and an elapsed
restart time are both marked SOCKS_DELETE by the phase-A scan; the reap walk
then unlinks the first one, resets its cursor to the new head and the `for`
increment immediately steps past it, so the iteration ends with the second
entry still in the queue in state SOCKS_DELETE — contradicting the claim
that no DELETE entry survives a full iteration. -/
theorem c1_delete_survives_iteration :
    reactorIteration ⟨3, 2, 10, 30, false, false, false, ConnType.socks4a⟩
        5 5 [] none []
        [{ entryInit 1 false with retry := 3 },
         { entryInit 2 false with retry := 3 }] =
      [{ entryInit 2 false with retry := 4, state := SockState.delete }] ∧
    ({ entryInit 2 false with
        retry := 4, state := SockState.delete } : SocksQueue_t).state =
      SockState.delete := by
  constructor
  · have hq3 : phaseBList
        ⟨3, 2, 10, 30, false, false, false, ConnType.socks4a⟩ 5 []
        (phaseAList ⟨3, 2, 10, 30, false, false, false, ConnType.socks4a⟩ 5
          [] [{ entryInit 1 false with retry := 3 },
              { entryInit 2 false with retry := 3 }]) =
        [{ entryInit 1 false with retry := 4, state := SockState.delete },
         { entryInit 2 false with
            retry := 4, state := SockState.delete }] := by decide
    show reap _ = _
    rw [hq3]
    rw [reap, reapAux]
    norm_num [List.eraseIdx]
    rw [reapAux]
    norm_num
  · rfl

end OcatSocks
